import Mathlib

/-!
Verification of the wave-field buoyancy engine of `src/src/water-shaders.js`
(the `createWaterPhysics` closure: `getWaterHeight`, `calculateBuoyancyForce`,
`calculateDragForce`, `applyWaterPhysics`, `update`).

Two layers are used.

* An idealized layer over `ℝ` for the pure numeric functions
  (`getWaterHeight`, `calculateBuoyancyForce`, `calculateDragForce`), in which
  JavaScript numbers are modelled as real numbers.
* A second layer (`JSNum := Option ℝ`, with `none` playing the role of IEEE
  NaN) for the per-tick driver `applyWaterPhysics`/`update`, because the
  source relies on NaN propagation and on the fact that every IEEE comparison
  involving NaN is false (the `lengthSq() > 0` and
  `averageSubmergedDepth > 0` guards).  Infinities never arise on the paths
  modelled here: the only division whose divisor can be zero is the
  average-depth division, whose numerator is then also zero (`0/0 = NaN`).

The per-body random sampling (`Math.random()`) is modelled by an explicit
oracle `rnd : ℕ → ℝ × ℝ × ℝ` supplying the three raw draws of each sample
point, and `update`'s shared stream by a per-body oracle family.
-/

noncomputable section

/-- Three real components, modelling `THREE.Vector3` with idealized reals. -/
structure Vec3 where
  x : ℝ
  y : ℝ
  z : ℝ

/-- The settings record of the engine (`waterPhysicsParams` merged with the
caller's overrides).  `waveDirection` is a `THREE.Vector2` whose `x`/`y`
components are the horizontal x/z directions; `subSteps` and
`maxBuoyancyPoints` are JavaScript numbers used as integers, modelled as `ℤ`
so that negative configurations remain expressible. -/
structure WaterSettings where
  density : ℝ
  buoyancyMultiplier : ℝ
  linearDrag : ℝ
  quadraticDrag : ℝ
  waveHeight : ℝ
  waveFrequency : ℝ
  waveSpeed : ℝ
  waveDirection : ℝ × ℝ
  surfaceTension : ℝ
  vorticity : ℝ
  damping : ℝ
  subSteps : ℤ
  maxBuoyancyPoints : ℤ

/-- The module-level defaults (`waterPhysicsParams`, lines 304-327).
`waveDirection` is `new THREE.Vector2(1, 1).normalize()`. -/
def waterPhysicsParams : WaterSettings where
  density := 1.0
  buoyancyMultiplier := 1.2
  linearDrag := 0.5
  quadraticDrag := 0.05
  waveHeight := 0.2
  waveFrequency := 0.5
  waveSpeed := 1.0
  waveDirection := (1 / Real.sqrt 2, 1 / Real.sqrt 2)
  surfaceTension := 0.07
  vorticity := 0.1
  damping := 0.03
  subSteps := 3
  maxBuoyancyPoints := 8

/-- Embedding of `getWaterHeight(x, z, time)` (lines 340-366): the sum of the
primary, secondary and tertiary sine terms, written exactly as in the source
(`waveX`/`waveZ` are `settings.waveDirection.x`/`.y`). -/
def getWaterHeight (s : WaterSettings) (x z time : ℝ) : ℝ :=
  let waveX := s.waveDirection.1
  let waveZ := s.waveDirection.2
  Real.sin ((x * waveX + z * waveZ) * s.waveFrequency + time * s.waveSpeed)
      * s.waveHeight
    + Real.sin ((x * (-waveZ) + z * waveX) * s.waveFrequency * 1.5
        + time * s.waveSpeed * 0.8) * s.waveHeight * 0.3
    + Real.sin ((x * (waveX + waveZ) + z * (waveX - waveZ)) * s.waveFrequency * 2.3
        + time * s.waveSpeed * 1.2) * s.waveHeight * 0.15

/-- The `actualWaterHeight` computed at line 371:
`waterLevel + getWaterHeight(position.x, position.z, time)`. -/
def actualWaterHeight (s : WaterSettings) (waterLevel x z time : ℝ) : ℝ :=
  waterLevel + getWaterHeight s x z time

/-- Result record of `calculateBuoyancyForce`. -/
structure BuoyancySample where
  force : Vec3
  submergedDepth : ℝ

/-- Embedding of `calculateBuoyancyForce(position, waterLevel, time)`
(lines 369-390). -/
def calculateBuoyancyForce (s : WaterSettings) (position : Vec3)
    (waterLevel time : ℝ) : BuoyancySample :=
  let awh := actualWaterHeight s waterLevel position.x position.z time
  if position.y > awh then
    ⟨⟨0, 0, 0⟩, 0⟩
  else
    let submergedDepth := awh - position.y
    let buoyancyForce :=
      s.density * 9.81 * submergedDepth * s.buoyancyMultiplier
    ⟨⟨0, buoyancyForce, 0⟩, submergedDepth⟩

/-- `THREE.Vector3.length()`: `sqrt(x*x + y*y + z*z)`. -/
def length3 (v : Vec3) : ℝ :=
  Real.sqrt (v.x * v.x + v.y * v.y + v.z * v.z)

/-- Embedding of `calculateDragForce(velocity, submergedDepth)`
(lines 393-412).  `velocity.clone().normalize().multiplyScalar(-m)` has
components `vᵢ / speed * (-m)`; the recomputed length inside `normalize`
equals `speed`, which the guard keeps away from zero on this branch. -/
def calculateDragForce (s : WaterSettings) (velocity : Vec3)
    (submergedDepth : ℝ) : Vec3 :=
  if submergedDepth ≤ 0 then ⟨0, 0, 0⟩
  else
    let speed := length3 velocity
    if speed < 0.001 then ⟨0, 0, 0⟩
    else
      let dragMagnitude :=
        (s.linearDrag * speed + s.quadraticDrag * speed * speed) * submergedDepth
      ⟨velocity.x / speed * (-dragMagnitude),
       velocity.y / speed * (-dragMagnitude),
       velocity.z / speed * (-dragMagnitude)⟩

/-- The caller-supplied override object of `createWaterPhysics(world, params)`:
any subset of the recognized options may be present. -/
structure WaterParams where
  density : Option ℝ := none
  buoyancyMultiplier : Option ℝ := none
  linearDrag : Option ℝ := none
  quadraticDrag : Option ℝ := none
  waveHeight : Option ℝ := none
  waveFrequency : Option ℝ := none
  waveSpeed : Option ℝ := none
  waveDirection : Option (ℝ × ℝ) := none
  surfaceTension : Option ℝ := none
  vorticity : Option ℝ := none
  damping : Option ℝ := none
  subSteps : Option ℤ := none
  maxBuoyancyPoints : Option ℤ := none

/-- The engine object returned by `createWaterPhysics`: it carries the merged
settings; its `getWaterHeight`/`applyWaterPhysics`/`update` methods are the
top-level functions of this file applied to those settings. -/
structure WaterPhysics where
  settings : WaterSettings

/-- Embedding of `createWaterPhysics(world, params)` (lines 335-337):
`settings = { ...waterPhysicsParams, ...params }` and nothing else — the
source performs no validation whatsoever before returning the simulator. -/
def createWaterPhysics (params : WaterParams) : WaterPhysics where
  settings :=
    { density := params.density.getD waterPhysicsParams.density
      buoyancyMultiplier :=
        params.buoyancyMultiplier.getD waterPhysicsParams.buoyancyMultiplier
      linearDrag := params.linearDrag.getD waterPhysicsParams.linearDrag
      quadraticDrag := params.quadraticDrag.getD waterPhysicsParams.quadraticDrag
      waveHeight := params.waveHeight.getD waterPhysicsParams.waveHeight
      waveFrequency := params.waveFrequency.getD waterPhysicsParams.waveFrequency
      waveSpeed := params.waveSpeed.getD waterPhysicsParams.waveSpeed
      waveDirection := params.waveDirection.getD waterPhysicsParams.waveDirection
      surfaceTension := params.surfaceTension.getD waterPhysicsParams.surfaceTension
      vorticity := params.vorticity.getD waterPhysicsParams.vorticity
      damping := params.damping.getD waterPhysicsParams.damping
      subSteps := params.subSteps.getD waterPhysicsParams.subSteps
      maxBuoyancyPoints :=
        params.maxBuoyancyPoints.getD waterPhysicsParams.maxBuoyancyPoints }

/-- The wave-height formula exactly as the specification states it (three
terms `amplitude * sin(dot(position_xz, direction) * frequency + time * speed)`
with the tertiary direction the NORMALIZED sum of the primary direction and
its 90-degree rotation).  Written from the specification's words, to be
compared with the source-derived `getWaterHeight`. -/
def specWaveHeight (s : WaterSettings) (x z time : ℝ) : ℝ :=
  let wx := s.waveDirection.1
  let wz := s.waveDirection.2
  let px := -wz
  let pz := wx
  let n := Real.sqrt ((wx + px) ^ 2 + (wz + pz) ^ 2)
  let ux := (wx + px) / n
  let uz := (wz + pz) / n
  s.waveHeight * Real.sin ((x * wx + z * wz) * s.waveFrequency + time * s.waveSpeed)
    + 0.3 * s.waveHeight
        * Real.sin ((x * px + z * pz) * (1.5 * s.waveFrequency)
            + time * (0.8 * s.waveSpeed))
    + 0.15 * s.waveHeight
        * Real.sin ((x * ux + z * uz) * (2.3 * s.waveFrequency)
            + time * (1.2 * s.waveSpeed))

/-- A single travelling-wave term of the shape used by the specification:
`amplitude * sin(dot((x,z), dir) * frequency + time * speed)`. -/
def waveTerm (amp dirX dirZ freq speed x z time : ℝ) : ℝ :=
  amp * Real.sin ((x * dirX + z * dirZ) * freq + time * speed)

/-- A JavaScript number: a real value, or `none` for IEEE NaN. -/
abbrev JSNum := Option ℝ

/-- A (non-NaN) JavaScript number literal. -/
def jnum (r : ℝ) : JSNum := some r

/-- JavaScript addition; NaN absorbs. -/
def jadd : JSNum → JSNum → JSNum
  | some a, some b => some (a + b)
  | _, _ => none

/-- JavaScript subtraction; NaN absorbs. -/
def jsub : JSNum → JSNum → JSNum
  | some a, some b => some (a - b)
  | _, _ => none

/-- JavaScript multiplication; NaN absorbs. -/
def jmul : JSNum → JSNum → JSNum
  | some a, some b => some (a * b)
  | _, _ => none

/-- JavaScript division; NaN absorbs.  A zero divisor yields `none`: in IEEE
terms `0/0 = NaN`, which is the only zero-divisor case reachable in this
development (the divisor is the sample count, and it is zero only when the
accumulated numerator is the literal `0`). -/
def jdiv : JSNum → JSNum → JSNum
  | some a, some b => if b = 0 then none else some (a / b)
  | _, _ => none

/-- JavaScript unary minus; NaN absorbs. -/
def jneg : JSNum → JSNum := Option.map (fun a => -a)

/-- `Math.sin`; NaN absorbs. -/
def jsin : JSNum → JSNum := Option.map Real.sin

/-- `Math.sqrt`; NaN absorbs (negative arguments never occur here: the only
use is on sums of squares of real values). -/
def jsqrt : JSNum → JSNum := Option.map Real.sqrt

/-- JavaScript `<`: false whenever either operand is NaN. -/
def jltb : JSNum → JSNum → Bool
  | some a, some b => decide (a < b)
  | _, _ => false

/-- JavaScript `<=`: false whenever either operand is NaN. -/
def jleb : JSNum → JSNum → Bool
  | some a, some b => decide (a ≤ b)
  | _, _ => false

/-- JavaScript `>`: false whenever either operand is NaN. -/
def jgtb : JSNum → JSNum → Bool
  | some a, some b => decide (b < a)
  | _, _ => false

structure JVec3 where
  x : JSNum
  y : JSNum
  z : JSNum

/-- Lift a real vector into the JavaScript-number layer. -/
def jvec (v : Vec3) : JVec3 := ⟨jnum v.x, jnum v.y, jnum v.z⟩

/-- `THREE.Vector3.lengthSq()`: `x*x + y*y + z*z`. -/
def jlengthSq (v : JVec3) : JSNum :=
  jadd (jadd (jmul v.x v.x) (jmul v.y v.y)) (jmul v.z v.z)

/-- `THREE.Vector3.length()`: `sqrt(x*x + y*y + z*z)`. -/
def jlength (v : JVec3) : JSNum := jsqrt (jlengthSq v)

/-- `getWaterHeight` over JavaScript numbers (lines 340-366), mirroring
`getWaterHeight` term for term; `time` and the settings are genuine numbers,
only the queried `x`/`z` may be NaN. -/
def getWaterHeightJ (s : WaterSettings) (x z : JSNum) (time : ℝ) : JSNum :=
  let waveX := s.waveDirection.1
  let waveZ := s.waveDirection.2
  jadd (jadd
    (jmul (jsin (jadd
      (jmul (jadd (jmul x (jnum waveX)) (jmul z (jnum waveZ)))
        (jnum s.waveFrequency))
      (jnum (time * s.waveSpeed)))) (jnum s.waveHeight))
    (jmul (jmul (jsin (jadd
      (jmul (jmul (jadd (jmul x (jnum (-waveZ))) (jmul z (jnum waveX)))
        (jnum s.waveFrequency)) (jnum 1.5))
      (jnum (time * s.waveSpeed * 0.8)))) (jnum s.waveHeight)) (jnum 0.3)))
    (jmul (jmul (jsin (jadd
      (jmul (jmul (jadd (jmul x (jnum (waveX + waveZ)))
        (jmul z (jnum (waveX - waveZ))))
        (jnum s.waveFrequency)) (jnum 2.3))
      (jnum (time * s.waveSpeed * 1.2)))) (jnum s.waveHeight)) (jnum 0.15))

/-- `calculateBuoyancyForce` over JavaScript numbers (lines 369-390). -/
def calculateBuoyancyForceJ (s : WaterSettings) (position : JVec3)
    (waterLevel time : ℝ) : JVec3 × JSNum :=
  let awh := jadd (jnum waterLevel) (getWaterHeightJ s position.x position.z time)
  if jgtb position.y awh then
    (⟨jnum 0, jnum 0, jnum 0⟩, jnum 0)
  else
    let submergedDepth := jsub awh position.y
    let buoyancyForce :=
      jmul (jmul (jmul (jnum s.density) (jnum 9.81)) submergedDepth)
        (jnum s.buoyancyMultiplier)
    (⟨jnum 0, buoyancyForce, jnum 0⟩, submergedDepth)

/-- `calculateDragForce` over JavaScript numbers (lines 393-412). -/
def calculateDragForceJ (s : WaterSettings) (velocity : JVec3)
    (submergedDepth : JSNum) : JVec3 :=
  if jleb submergedDepth (jnum 0) then ⟨jnum 0, jnum 0, jnum 0⟩
  else
    let speed := jlength velocity
    if jltb speed (jnum 0.001) then ⟨jnum 0, jnum 0, jnum 0⟩
    else
      let dragMagnitude :=
        jmul (jadd (jmul (jnum s.linearDrag) speed)
          (jmul (jmul (jnum s.quadraticDrag) speed) speed)) submergedDepth
      ⟨jmul (jdiv velocity.x speed) (jneg dragMagnitude),
       jmul (jdiv velocity.y speed) (jneg dragMagnitude),
       jmul (jdiv velocity.z speed) (jneg dragMagnitude)⟩

/-- Collider shape as seen by `applyWaterPhysics` (lines 435-441): a Rapier
cuboid exposes its half-extents; every other shape falls back to the default
box below. -/
inductive Collider where
  | cuboid (halfExtents : Vec3)
  | other

/-- Half-extents used for sampling: the cuboid's own, else `(0.5,0.5,0.5)`. -/
def halfExtentsOf : Collider → Vec3
  | .cuboid he => he
  | .other => ⟨0.5, 0.5, 0.5⟩

/-- Rapier body type; `applyWaterPhysics` is invoked only for dynamic ones. -/
inductive BodyType where
  | dynamic
  | fixed
deriving DecidableEq

/-- Snapshot of a rigid body as read at lines 417-425: `translation()`,
`linvel()`, `rotation()` (a quaternion — read by the source but never used),
and the result of the collider lookup (`none` models a null collider). -/
structure RigidBody where
  position : JVec3
  velocity : JVec3
  rotation : ℝ × ℝ × ℝ × ℝ
  collider : Option Collider
  bodyType : BodyType

/-- Sample-point count (lines 444-445):
`Math.min(settings.maxBuoyancyPoints, Math.ceil(hx*hy*hz*8))`, taken as the
trip count of the `for` loop (a negative value runs the loop zero times,
hence `Int.toNat`). -/
def numSamplePoints (s : WaterSettings) (he : Vec3) : ℕ :=
  (min s.maxBuoyancyPoints ⌈he.x * he.y * he.z * 8⌉).toNat

/-- One random local offset (lines 450-452): each component is
`(Math.random() * 2 - 1) * halfExtent`, with `r` the triple of raw
`Math.random()` draws for this sample point. -/
def sampleOffset (he : Vec3) (r : ℝ × ℝ × ℝ) : Vec3 :=
  ⟨(r.1 * 2 - 1) * he.x, (r.2.1 * 2 - 1) * he.y, (r.2.2 * 2 - 1) * he.z⟩

/-- The world-space sample points (lines 447-462) over JavaScript numbers;
`rnd i` supplies the three draws of point `i`. -/
def samplePointsJ (position : JVec3) (he : Vec3) (rnd : ℕ → ℝ × ℝ × ℝ)
    (n : ℕ) : List JVec3 :=
  (List.range n).map fun i =>
    let o := sampleOffset he (rnd i)
    ⟨jadd position.x (jnum o.x), jadd position.y (jnum o.y),
     jadd position.z (jnum o.z)⟩

/-- The same sample points for a body whose position is a genuine vector. -/
def samplePointsR (position : Vec3) (he : Vec3) (rnd : ℕ → ℝ × ℝ × ℝ)
    (n : ℕ) : List Vec3 :=
  (List.range n).map fun i =>
    let o := sampleOffset he (rnd i)
    ⟨position.x + o.x, position.y + o.y, position.z + o.z⟩

/-- One iteration of the accumulation loop (lines 469-476):
`totalBuoyancyForce.add(force); averageSubmergedDepth += submergedDepth`. -/
def buoyancyAccumJ (s : WaterSettings) (waterLevel time : ℝ)
    (acc : JVec3 × JSNum) (p : JVec3) : JVec3 × JSNum :=
  let b := calculateBuoyancyForceJ s p waterLevel time
  (⟨jadd acc.1.x b.1.x, jadd acc.1.y b.1.y, jadd acc.1.z b.1.z⟩,
   jadd acc.2 b.2)

/-- Accumulated total buoyancy force and depth sum over all sample points. -/
def buoyancyTotalsJ (s : WaterSettings) (pts : List JVec3)
    (waterLevel time : ℝ) : JVec3 × JSNum :=
  pts.foldl (buoyancyAccumJ s waterLevel time)
    (⟨jnum 0, jnum 0, jnum 0⟩, jnum 0)

/-- The accumulation loop over genuine real positions. -/
def buoyancyAccumR (s : WaterSettings) (waterLevel time : ℝ)
    (acc : Vec3 × ℝ) (p : Vec3) : Vec3 × ℝ :=
  let b := calculateBuoyancyForce s p waterLevel time
  (⟨acc.1.x + b.force.x, acc.1.y + b.force.y, acc.1.z + b.force.z⟩,
   acc.2 + b.submergedDepth)

/-- Accumulated totals over genuine real positions. -/
def buoyancyTotalsR (s : WaterSettings) (pts : List Vec3)
    (waterLevel time : ℝ) : Vec3 × ℝ :=
  pts.foldl (buoyancyAccumR s waterLevel time) (⟨0, 0, 0⟩, 0)

/-- `averageSubmergedDepth` (line 479) for a real-positioned body with `n`
sample points: the accumulated depth sum divided by `n`. -/
def averageSubmergedDepthR (s : WaterSettings) (position he : Vec3)
    (rnd : ℕ → ℝ × ℝ × ℝ) (n : ℕ) (waterLevel time : ℝ) : ℝ :=
  (buoyancyTotalsR s (samplePointsR position he rnd n) waterLevel time).2 / n

/-- The impulses one `applyWaterPhysics` call hands to
`rigidBody.applyImpulse`: one optional impulse per call site (buoyancy,
drag, surface-wave surge), `none` when that site's guard fails.  Rapier's
`applyImpulse` at the centre of mass changes only linear momentum, so a tick
whose three fields are `none` leaves the body's state untouched. -/
structure TickResult where
  buoyancyImpulse : Option JVec3
  dragImpulse : Option JVec3
  surgeImpulse : Option JVec3

/-- A tick that applies no impulse at all. -/
def emptyTick : TickResult := ⟨none, none, none⟩

/-- Embedding of `applyWaterPhysics(rigidBody, waterLevel, time, deltaTime)`
(lines 415-522).  The early-outs (far above water, null collider) and the
three guarded `applyImpulse` sites are modelled exactly; `Math.random()` is
the oracle `rnd`. -/
def applyWaterPhysicsJ (s : WaterSettings) (rnd : ℕ → ℝ × ℝ × ℝ)
    (body : RigidBody) (waterLevel time deltaTime : ℝ) : TickResult :=
  if jgtb body.position.y (jnum (waterLevel + 5)) then emptyTick
  else
    match body.collider with
    | none => emptyTick
    | some c =>
      let halfExtents := halfExtentsOf c
      let n := numSamplePoints s halfExtents
      let buoyancyPoints := samplePointsJ body.position halfExtents rnd n
      let totals := buoyancyTotalsJ s buoyancyPoints waterLevel time
      let totalBuoyancyForce := totals.1
      let averageSubmergedDepth := jdiv totals.2 (jnum (n : ℝ))
      let totalDragForce := calculateDragForceJ s body.velocity averageSubmergedDepth
      { buoyancyImpulse :=
          if jgtb (jlengthSq totalBuoyancyForce) (jnum 0) then
            some ⟨jnum 0, jmul totalBuoyancyForce.y (jnum deltaTime), jnum 0⟩
          else none
        dragImpulse :=
          if jgtb (jlengthSq totalDragForce) (jnum 0) then
            some ⟨jmul totalDragForce.x (jnum deltaTime),
                  jmul totalDragForce.y (jnum deltaTime),
                  jmul totalDragForce.z (jnum deltaTime)⟩
          else none
        surgeImpulse :=
          if jgtb averageSubmergedDepth (jnum 0)
              && jltb averageSubmergedDepth (jnum (halfExtents.y * 2)) then
            let m := s.waveHeight * 0.5 * Real.sin (time * s.waveSpeed)
            some ⟨jnum (s.waveDirection.1 * m * deltaTime), jnum 0,
                  jnum (s.waveDirection.2 * m * deltaTime)⟩
          else none }

/-- The indexed loop of `update` (lines 531-541), with the loop counter made
explicit; `rnds i` is the random oracle consumed by body `i`. -/
def updateJAux (s : WaterSettings) (rnds : ℕ → ℕ → ℝ × ℝ × ℝ)
    (waterLevel time deltaTime : ℝ) : List RigidBody → ℕ → List TickResult
  | [], _ => []
  | b :: rest, i =>
    (if b.bodyType = BodyType.dynamic then
      applyWaterPhysicsJ s (rnds i) b waterLevel time deltaTime
     else emptyTick) :: updateJAux s rnds waterLevel time deltaTime rest (i + 1)

/-- Embedding of `update(deltaTime, waterLevel, time)`: apply the water
physics to every dynamic body of the world, in order. -/
def updateJ (s : WaterSettings) (rnds : ℕ → ℕ → ℝ × ℝ × ℝ)
    (bodies : List RigidBody) (deltaTime waterLevel time : ℝ) : List TickResult :=
  updateJAux s rnds waterLevel time deltaTime bodies 0

/-- Settings used to separate the source's tertiary wave from the
specification's: unit wave direction `(1, 0)`, unit amplitude/frequency/speed. -/
def cexSettings : WaterSettings :=
  { waterPhysicsParams with
      waveDirection := (1, 0), waveHeight := 1, waveFrequency := 1, waveSpeed := 1 }

/-- Default settings with a flat surface (`waveHeight = 0`). -/
def flatSettings : WaterSettings := { waterPhysicsParams with waveHeight := 0 }

/-- Flat surface and a single sample point per body. -/
def surgeSettings : WaterSettings :=
  { waterPhysicsParams with waveHeight := 0, maxBuoyancyPoints := 1 }

/-- Default settings with `maxBuoyancyPoints = 0`. -/
def zeroPtsSettings : WaterSettings :=
  { waterPhysicsParams with maxBuoyancyPoints := 0 }

/-- An override object carrying every invalid configuration named by the
specification: zero-magnitude wave direction, negative density, negative
sub-step and sample-point counts. -/
def badParams : WaterParams :=
  { density := some (-1), waveDirection := some (0, 0),
    subSteps := some (-1), maxBuoyancyPoints := some (-1) }

/-- A fixed random oracle: every draw is `0.5`, so every sample offset is the
body's own centre. -/
def rnd0 : ℕ → ℝ × ℝ × ℝ := fun _ => (0.5, 0.5, 0.5)

/-- The same fixed oracle for every body of an update. -/
def rnds0 : ℕ → ℕ → ℝ × ℝ × ℝ := fun _ _ => (0.5, 0.5, 0.5)

/-- Identity quaternion. -/
def q0 : ℝ × ℝ × ℝ × ℝ := (0, 0, 0, 1)

/-- A unit-half-extent cuboid collider. -/
def unitCuboid : Collider := Collider.cuboid ⟨1, 1, 1⟩

/-- A dynamic body floating at the origin. -/
def bodyFloat : RigidBody :=
  ⟨jvec ⟨0, 0, 0⟩, jvec ⟨0, 0, 0⟩, q0, some unitCuboid, BodyType.dynamic⟩

/-- A dynamic body far above the water surface. -/
def bodyAbove : RigidBody :=
  ⟨jvec ⟨0, 10, 0⟩, jvec ⟨0, 0, 0⟩, q0, some unitCuboid, BodyType.dynamic⟩

/-- A moving dynamic body at the origin. -/
def bodyMoving : RigidBody :=
  ⟨jvec ⟨0, 0, 0⟩, jvec ⟨1, 0, 0⟩, q0, some unitCuboid, BodyType.dynamic⟩

/-- A dynamic body whose position's y component is NaN. -/
def bodyNaN : RigidBody :=
  ⟨⟨jnum 0, none, jnum 0⟩, jvec ⟨1, 0, 0⟩, q0, some unitCuboid, BodyType.dynamic⟩

theorem jadd_some_some (a b : ℝ) : jadd (some a) (some b) = some (a + b) := rfl

theorem jadd_none_left (b : JSNum) : jadd none b = none := by cases b <;> rfl

theorem jadd_none_right (a : JSNum) : jadd a none = none := by cases a <;> rfl

theorem jsub_some_some (a b : ℝ) : jsub (some a) (some b) = some (a - b) := rfl

theorem jsub_none_left (b : JSNum) : jsub none b = none := by cases b <;> rfl

theorem jsub_none_right (a : JSNum) : jsub a none = none := by cases a <;> rfl

theorem jmul_some_some (a b : ℝ) : jmul (some a) (some b) = some (a * b) := rfl

theorem jmul_none_left (b : JSNum) : jmul none b = none := by cases b <;> rfl

theorem jmul_none_right (a : JSNum) : jmul a none = none := by cases a <;> rfl

theorem jdiv_none_left (b : JSNum) : jdiv none b = none := by cases b <;> rfl

theorem jdiv_none_right (a : JSNum) : jdiv a none = none := by cases a <;> rfl

theorem jltb_none_left (b : JSNum) : jltb none b = false := by cases b <;> rfl

theorem jltb_none_right (a : JSNum) : jltb a none = false := by cases a <;> rfl

theorem jleb_none_left (b : JSNum) : jleb none b = false := by cases b <;> rfl

theorem jleb_none_right (a : JSNum) : jleb a none = false := by cases a <;> rfl

theorem jgtb_none_left (b : JSNum) : jgtb none b = false := by cases b <;> rfl

theorem jgtb_none_right (a : JSNum) : jgtb a none = false := by cases a <;> rfl

theorem jadd_jnum (a b : ℝ) : jadd (jnum a) (jnum b) = jnum (a + b) := rfl

theorem jsub_jnum (a b : ℝ) : jsub (jnum a) (jnum b) = jnum (a - b) := rfl

theorem jmul_jnum (a b : ℝ) : jmul (jnum a) (jnum b) = jnum (a * b) := rfl

theorem jneg_jnum (a : ℝ) : jneg (jnum a) = jnum (-a) := rfl

theorem jsin_jnum (a : ℝ) : jsin (jnum a) = jnum (Real.sin a) := rfl

theorem jsqrt_jnum (a : ℝ) : jsqrt (jnum a) = jnum (Real.sqrt a) := rfl

theorem jdiv_jnum (a b : ℝ) (hb : b ≠ 0) :
    jdiv (jnum a) (jnum b) = jnum (a / b) := by
  simp [jdiv, jnum, hb]

theorem jltb_jnum (a b : ℝ) : jltb (jnum a) (jnum b) = decide (a < b) := rfl

theorem jleb_jnum (a b : ℝ) : jleb (jnum a) (jnum b) = decide (a ≤ b) := rfl

theorem jgtb_jnum (a b : ℝ) : jgtb (jnum a) (jnum b) = decide (b < a) := rfl

/-- A `THREE.Vector3` whose components are JavaScript numbers. -/

theorem jsin_none : jsin none = none := rfl

theorem jsqrt_none : jsqrt none = none := rfl

theorem jneg_none : jneg none = none := rfl

theorem getWaterHeightJ_jnum (s : WaterSettings) (x z t : ℝ) :
    getWaterHeightJ s (jnum x) (jnum z) t = jnum (getWaterHeight s x z t) := by
  simp only [getWaterHeightJ, getWaterHeight, jnum, jadd_some_some, jmul_some_some,
    jsin, Option.map_some']

theorem getWaterHeightJ_none_x (s : WaterSettings) (z : JSNum) (t : ℝ) :
    getWaterHeightJ s none z t = none := by
  simp only [getWaterHeightJ, jmul_none_left, jadd_none_left, jsin_none,
    jmul_none_right, jadd_none_right]

theorem getWaterHeightJ_none_z (s : WaterSettings) (x : JSNum) (t : ℝ) :
    getWaterHeightJ s x none t = none := by
  simp only [getWaterHeightJ, jmul_none_left, jadd_none_left, jsin_none,
    jmul_none_right, jadd_none_right]

theorem calculateBuoyancyForceJ_jvec (s : WaterSettings) (p : Vec3) (w t : ℝ) :
    calculateBuoyancyForceJ s (jvec p) w t =
      (jvec (calculateBuoyancyForce s p w t).force,
       jnum (calculateBuoyancyForce s p w t).submergedDepth) := by
  unfold calculateBuoyancyForceJ calculateBuoyancyForce
  simp only [jvec, getWaterHeightJ_jnum, jadd_jnum, jgtb_jnum, jsub_jnum,
    jmul_jnum, actualWaterHeight]
  by_cases h : p.y > w + getWaterHeight s p.x p.z t
  · rw [decide_eq_true h]
    simp [h, jvec]
  · rw [decide_eq_false h]
    simp [h, jvec]

theorem calculateBuoyancyForceJ_nanPos (s : WaterSettings) (p : JVec3) (w t : ℝ)
    (h : p.x = none ∨ p.y = none ∨ p.z = none) :
    calculateBuoyancyForceJ s p w t = (⟨jnum 0, none, jnum 0⟩, none) := by
  rcases h with hx | hy | hz
  · simp [calculateBuoyancyForceJ, hx, getWaterHeightJ_none_x, jadd_none_right,
      jgtb_none_right, jsub_none_left, jmul_none_left, jmul_none_right]
  · simp [calculateBuoyancyForceJ, hy, jgtb_none_left, jsub_none_right,
      jmul_none_left, jmul_none_right]
  · simp [calculateBuoyancyForceJ, hz, getWaterHeightJ_none_z, jadd_none_right,
      jgtb_none_right, jsub_none_left, jmul_none_left, jmul_none_right]

theorem calculateDragForceJ_nanDepth (s : WaterSettings) (v : JVec3) :
    jgtb (jlengthSq (calculateDragForceJ s v none)) (jnum 0) = false := by
  unfold calculateDragForceJ
  rw [jleb_none_left]
  simp only [Bool.false_eq_true, if_false]
  split
  · simp only [jlengthSq, jmul_jnum, jadd_jnum, jgtb_jnum,
      decide_eq_false_iff_not]
    norm_num
  · simp only [jmul_none_right, jneg_none, jlengthSq, jadd_none_left,
      jadd_none_right, jmul_none_left, jgtb_none_left]

theorem samplePointsJ_jvec (p he : Vec3) (rnd : ℕ → ℝ × ℝ × ℝ) (n : ℕ) :
    samplePointsJ (jvec p) he rnd n = (samplePointsR p he rnd n).map jvec := by
  unfold samplePointsJ samplePointsR
  rw [List.map_map]
  congr 1

theorem foldl_buoyancyAccum_jvec (s : WaterSettings) (w t : ℝ) :
    ∀ (pts : List Vec3) (aF : Vec3) (aD : ℝ),
    (pts.map jvec).foldl (buoyancyAccumJ s w t) (jvec aF, jnum aD) =
      (jvec (pts.foldl (buoyancyAccumR s w t) (aF, aD)).1,
       jnum (pts.foldl (buoyancyAccumR s w t) (aF, aD)).2) := by
  intro pts
  induction pts with
  | nil => intro aF aD; rfl
  | cons p rest ih =>
    intro aF aD
    simp only [List.map_cons, List.foldl_cons]
    have hstep : buoyancyAccumJ s w t (jvec aF, jnum aD) (jvec p) =
        (jvec (buoyancyAccumR s w t (aF, aD) p).1,
         jnum (buoyancyAccumR s w t (aF, aD) p).2) := by
      unfold buoyancyAccumJ buoyancyAccumR
      rw [calculateBuoyancyForceJ_jvec]
      simp [jvec, jnum, jadd_some_some]
    rw [hstep]
    have h2 := ih (buoyancyAccumR s w t (aF, aD) p).1
      (buoyancyAccumR s w t (aF, aD) p).2
    simpa using h2

theorem buoyancyTotalsJ_jvec (s : WaterSettings) (pts : List Vec3) (w t : ℝ) :
    buoyancyTotalsJ s (pts.map jvec) w t =
      (jvec (buoyancyTotalsR s pts w t).1, jnum (buoyancyTotalsR s pts w t).2) := by
  unfold buoyancyTotalsJ buoyancyTotalsR
  have h := foldl_buoyancyAccum_jvec s w t pts ⟨0, 0, 0⟩ 0
  simpa [jvec, jnum] using h

theorem foldl_buoyancyAccum_nan (s : WaterSettings) (w t : ℝ) :
    ∀ (pts : List JVec3) (acc : JVec3 × JSNum),
    (∀ p ∈ pts, calculateBuoyancyForceJ s p w t = (⟨jnum 0, none, jnum 0⟩, none)) →
    acc.1.y = none → acc.2 = none →
    (pts.foldl (buoyancyAccumJ s w t) acc).1.y = none ∧
      (pts.foldl (buoyancyAccumJ s w t) acc).2 = none := by
  intro pts
  induction pts with
  | nil => intro acc _ hy hd; exact ⟨hy, hd⟩
  | cons p rest ih =>
    intro acc hall hy hd
    simp only [List.foldl_cons]
    apply ih
    · intro q hq; exact hall q (List.mem_cons_of_mem p hq)
    · unfold buoyancyAccumJ
      rw [hall p (List.mem_cons_self p rest)]
      simp only [hy, jadd_none_left]
    · unfold buoyancyAccumJ
      rw [hall p (List.mem_cons_self p rest)]
      simp only [hd, jadd_none_left]

theorem updateJAux_getElem (s : WaterSettings) (rnds : ℕ → ℕ → ℝ × ℝ × ℝ)
    (w t dt : ℝ) :
    ∀ (bodies : List RigidBody) (i k : ℕ),
    (updateJAux s rnds w t dt bodies i)[k]? =
      bodies[k]?.map fun b =>
        if b.bodyType = BodyType.dynamic then
          applyWaterPhysicsJ s (rnds (i + k)) b w t dt
        else emptyTick := by
  intro bodies
  induction bodies with
  | nil => intro i k; simp [updateJAux]
  | cons b rest ih =>
    intro i k
    cases k with
    | zero => simp [updateJAux]
    | succ k =>
      have harith : i + (k + 1) = (i + 1) + k := by omega
      simp only [updateJAux, List.getElem?_cons_succ, ih (i + 1) k, harith]

theorem jdiv_jnum_zero (a : JSNum) : jdiv a (jnum 0) = none := by
  cases a <;> simp [jdiv, jnum]

theorem jlengthSq_zero_guard :
    jgtb (jlengthSq ⟨jnum 0, jnum 0, jnum 0⟩) (jnum 0) = false := by
  simp only [jlengthSq, jmul_jnum, jadd_jnum, jgtb_jnum, decide_eq_false_iff_not]
  norm_num

theorem jlengthSq_nan_guard (F : JVec3) (hFy : F.y = none) :
    jgtb (jlengthSq F) (jnum 0) = false := by
  rw [jlengthSq, hFy, jmul_none_left, jadd_none_right, jadd_none_left,
    jgtb_none_left]

theorem buoyancyTotalsJ_nan (s : WaterSettings) (w t : ℝ) (pts : List JVec3)
    (hne : pts ≠ [])
    (hall : ∀ p ∈ pts,
      calculateBuoyancyForceJ s p w t = (⟨jnum 0, none, jnum 0⟩, none)) :
    (buoyancyTotalsJ s pts w t).1.y = none ∧
      (buoyancyTotalsJ s pts w t).2 = none := by
  cases pts with
  | nil => exact absurd rfl hne
  | cons p rest =>
    unfold buoyancyTotalsJ
    simp only [List.foldl_cons]
    apply foldl_buoyancyAccum_nan
    · intro q hq; exact hall q (List.mem_cons_of_mem p hq)
    · unfold buoyancyAccumJ
      rw [hall p (List.mem_cons_self p rest)]
      simp [jadd_none_right]
    · unfold buoyancyAccumJ
      rw [hall p (List.mem_cons_self p rest)]
      simp [jadd_none_right]

/-- C2: for every sample point, water level and time, with
`surfaceY = waterLevel + getWaterHeight(p.x, p.z, time)`: a point strictly
above the surface gets zero force and zero depth; a point exactly on the
surface gets zero depth and the zero force vector (inclusive boundary); a
point below gets `submergedDepth = surfaceY - p.y`, unclamped, and the purely
vertical force `(0, density * 9.81 * depth * buoyancyMultiplier, 0)`; and in
the flat-water scenario (`density = 1`, `buoyancyMultiplier = 1`,
`waveHeight = 0`, point at `y = waterLevel - 2`) the depth is `2` and the
force magnitude `19.62`. -/
theorem calculateBuoyancyForce_cases (s : WaterSettings) (p : Vec3) (w t : ℝ) :
    (p.y > actualWaterHeight s w p.x p.z t →
      calculateBuoyancyForce s p w t = ⟨⟨0, 0, 0⟩, 0⟩) ∧
    (p.y = actualWaterHeight s w p.x p.z t →
      calculateBuoyancyForce s p w t = ⟨⟨0, 0, 0⟩, 0⟩) ∧
    (p.y < actualWaterHeight s w p.x p.z t →
      calculateBuoyancyForce s p w t =
        ⟨⟨0, s.density * 9.81 * (actualWaterHeight s w p.x p.z t - p.y)
              * s.buoyancyMultiplier, 0⟩,
         actualWaterHeight s w p.x p.z t - p.y⟩) ∧
    calculateBuoyancyForce
        { s with density := 1, buoyancyMultiplier := 1, waveHeight := 0 }
        ⟨p.x, w - 2, p.z⟩ w t = ⟨⟨0, 19.62, 0⟩, 2⟩ := by
  refine ⟨?_, ?_, ?_, ?_⟩
  · intro h
    unfold calculateBuoyancyForce
    rw [if_pos h]
  · intro h
    have hnot : ¬ p.y > actualWaterHeight s w p.x p.z t := by
      rw [h]; exact lt_irrefl _
    unfold calculateBuoyancyForce
    rw [if_neg hnot]
    simp [h]
  · intro h
    have hnot : ¬ p.y > actualWaterHeight s w p.x p.z t := not_lt.2 h.le
    unfold calculateBuoyancyForce
    rw [if_neg hnot]
  · have hflat :
        getWaterHeight
          { s with density := 1, buoyancyMultiplier := 1, waveHeight := 0 }
          p.x p.z t = 0 := by
      simp [getWaterHeight]
    unfold calculateBuoyancyForce actualWaterHeight
    rw [hflat]
    rw [if_neg (by simp : ¬ ((⟨p.x, w - 2, p.z⟩ : Vec3).y > w + 0))]
    simp
    norm_num

/-- C2 witness: a concrete point strictly above a flat surface receives zero
force and zero depth. -/
theorem calculateBuoyancyForce_cases_witness :
    (1 : ℝ) > actualWaterHeight flatSettings 0 0 0 0 ∧
    calculateBuoyancyForce flatSettings ⟨0, 1, 0⟩ 0 0 = ⟨⟨0, 0, 0⟩, 0⟩ := by
  have h : (1 : ℝ) > actualWaterHeight flatSettings 0 0 0 0 := by
    simp [actualWaterHeight, getWaterHeight, flatSettings]
  exact ⟨h, (calculateBuoyancyForce_cases flatSettings ⟨0, 1, 0⟩ 0 0).1 h⟩

/-- C3: the drag force is the zero vector when `submergedDepth ≤ 0` or when
the speed is below the `0.001` threshold (so a still body gets no drag and no
near-zero vector is normalized), and otherwise has magnitude
`(linearDrag * speed + quadraticDrag * speed^2) * submergedDepth` directed
along the negated normalized velocity; in the scenario
`linearDrag = 0.5`, `quadraticDrag = 0.05`, `|v| = 4`, `depth = 1` the force
is `2.8` opposite the velocity. -/
theorem calculateDragForce_cases (s : WaterSettings) (v : Vec3) (d : ℝ) :
    (d ≤ 0 → calculateDragForce s v d = ⟨0, 0, 0⟩) ∧
    (length3 v < 0.001 → calculateDragForce s v d = ⟨0, 0, 0⟩) ∧
    (0 < d → 0.001 ≤ length3 v →
      calculateDragForce s v d =
        ⟨v.x / length3 v *
            (-((s.linearDrag * length3 v
                + s.quadraticDrag * length3 v * length3 v) * d)),
         v.y / length3 v *
            (-((s.linearDrag * length3 v
                + s.quadraticDrag * length3 v * length3 v) * d)),
         v.z / length3 v *
            (-((s.linearDrag * length3 v
                + s.quadraticDrag * length3 v * length3 v) * d))⟩) ∧
    calculateDragForce { s with linearDrag := 0.5, quadraticDrag := 0.05 }
        ⟨0, -4, 0⟩ 1 = ⟨0, 2.8, 0⟩ := by
  refine ⟨?_, ?_, ?_, ?_⟩
  · intro h
    unfold calculateDragForce
    rw [if_pos h]
  · intro h
    unfold calculateDragForce
    by_cases hd : d ≤ 0
    · rw [if_pos hd]
    · rw [if_neg hd, if_pos h]
  · intro hd hv
    unfold calculateDragForce
    rw [if_neg (not_le.2 hd), if_neg (not_lt.2 hv)]
  · have hlen : length3 ⟨0, -4, 0⟩ = 4 := by
      unfold length3
      rw [show ((0 : ℝ) * 0 + (-4) * (-4) + 0 * 0) = (4 : ℝ) ^ 2 by norm_num,
        Real.sqrt_sq (by norm_num : (0 : ℝ) ≤ 4)]
    unfold calculateDragForce
    rw [hlen]
    rw [if_neg (by norm_num : ¬ (1 : ℝ) ≤ 0),
      if_neg (by norm_num : ¬ (4 : ℝ) < 0.001)]
    simp
    norm_num

/-- C3 witness: zero submersion yields the zero drag vector. -/
theorem calculateDragForce_cases_witness :
    (-1 : ℝ) ≤ 0 ∧
    calculateDragForce waterPhysicsParams ⟨1, 2, 3⟩ (-1) = ⟨0, 0, 0⟩ :=
  ⟨by norm_num,
   (calculateDragForce_cases waterPhysicsParams ⟨1, 2, 3⟩ (-1)).1 (by norm_num)⟩

/-- C5: a body whose `position.y` exceeds `waterLevel + 5` is rejected before
any sampling: the tick applies no impulse at all (and therefore leaves the
body's velocity and every other part of its state unchanged). -/
theorem applyWaterPhysics_far_above_skips (s : WaterSettings)
    (rnd : ℕ → ℝ × ℝ × ℝ) (body : RigidBody) (w t dt py : ℝ)
    (hy : body.position.y = jnum py) (h : py > w + 5) :
    applyWaterPhysicsJ s rnd body w t dt = emptyTick := by
  unfold applyWaterPhysicsJ
  rw [hy, jgtb_jnum, decide_eq_true h, if_pos rfl]

/-- C5 witness: a body at height 10 over water level 0 gets an empty tick. -/
theorem applyWaterPhysics_far_above_skips_witness :
    bodyAbove.position.y = jnum 10 ∧ (10 : ℝ) > 0 + 5 ∧
    applyWaterPhysicsJ waterPhysicsParams rnd0 bodyAbove 0 0 1 = emptyTick :=
  ⟨rfl, by norm_num,
   applyWaterPhysics_far_above_skips waterPhysicsParams rnd0 bodyAbove 0 0 1 10
     rfl (by norm_num)⟩

/-- C6 counterexample: the claim says construction rejects a zero-magnitude
`waveDirection`, a negative `density` and negative `subSteps`/
`maxBuoyancyPoints`; in the source `createWaterPhysics` only spreads the
overrides over the defaults, so construction with all four invalid values
succeeds and the returned engine carries them verbatim. -/
theorem createWaterPhysics_accepts_invalid :
    (createWaterPhysics badParams).settings.density = -1 ∧
    (createWaterPhysics badParams).settings.waveDirection = (0, 0) ∧
    (createWaterPhysics badParams).settings.subSteps = -1 ∧
    (createWaterPhysics badParams).settings.maxBuoyancyPoints = -1 :=
  ⟨rfl, rfl, rfl, rfl⟩

/-- C6 amended: `createWaterPhysics` performs no validation at construction
time; it always returns an engine whose settings take every provided
override verbatim — including a zero `waveDirection`, a negative `density`
and negative `subSteps`/`maxBuoyancyPoints` — deferring any consequence to
tick/query time. -/
theorem createWaterPhysics_no_validation (p : WaterParams) (d : ℝ)
    (dir : ℝ × ℝ) (ss mp : ℤ) (hd : p.density = some d)
    (hdir : p.waveDirection = some dir) (hss : p.subSteps = some ss)
    (hmp : p.maxBuoyancyPoints = some mp) :
    (createWaterPhysics p).settings.density = d ∧
    (createWaterPhysics p).settings.waveDirection = dir ∧
    (createWaterPhysics p).settings.subSteps = ss ∧
    (createWaterPhysics p).settings.maxBuoyancyPoints = mp := by
  unfold createWaterPhysics
  simp [hd, hdir, hss, hmp]

/-- C6 witness: constructing with the invalid override object succeeds. -/
theorem createWaterPhysics_no_validation_witness :
    badParams.density = some (-1) ∧ badParams.waveDirection = some (0, 0) ∧
    badParams.subSteps = some (-1) ∧ badParams.maxBuoyancyPoints = some (-1) ∧
    ((createWaterPhysics badParams).settings.density = -1 ∧
     (createWaterPhysics badParams).settings.waveDirection = (0, 0) ∧
     (createWaterPhysics badParams).settings.subSteps = -1 ∧
     (createWaterPhysics badParams).settings.maxBuoyancyPoints = -1) :=
  ⟨rfl, rfl, rfl, rfl,
   createWaterPhysics_no_validation badParams (-1) (0, 0) (-1) (-1)
     rfl rfl rfl rfl⟩

/-- C9 counterexample: `getWaterHeight` does not take the water level at all
(the water level enters only `applyWaterPhysics` per call), so changing the
water level from `0` to `1` and re-querying `getWaterHeight(0, 0, 0)` changes
the result by `0`, not by `w2 - w1 = 1` as the claim states. -/
theorem getWaterHeight_waterLevel_requery_cex :
    ¬ (getWaterHeight waterPhysicsParams 0 0 0
        - getWaterHeight waterPhysicsParams 0 0 0 = 1 - 0) := by
  simp

/-- C9 amended: re-querying `getWaterHeight(x, z, t)` after a water-level
change returns the identical value; the effective physics surface height
`waterLevel + getWaterHeight(x, z, t)` (the `actualWaterHeight` used by
buoyancy) changes by exactly `w2 - w1`, with the `(x, z, t)` wave shape
unchanged. -/
theorem actualWaterHeight_waterLevel_shift (s : WaterSettings)
    (x z t w1 w2 : ℝ) :
    actualWaterHeight s w2 x z t - actualWaterHeight s w1 x z t = w2 - w1 ∧
    actualWaterHeight s w2 x z t - w2 = getWaterHeight s x z t ∧
    actualWaterHeight s w1 x z t - w1 = getWaterHeight s x z t := by
  unfold actualWaterHeight
  exact ⟨by ring, by ring, by ring⟩

/-- C10: the tick reads the body's rotation but never uses it — two ticks
differing only in rotation (same position, velocity, collider, parameters
and random draws) produce identical impulses, with sample points placed in
an axis-aligned box around the position and no orientation-dependent force
(all impulses are applied at the centre of mass, producing no torque). -/
theorem applyWaterPhysics_rotation_independent (s : WaterSettings)
    (rnd : ℕ → ℝ × ℝ × ℝ) (pos vel : JVec3) (r1 r2 : ℝ × ℝ × ℝ × ℝ)
    (col : Option Collider) (bt : BodyType) (w t dt : ℝ) :
    applyWaterPhysicsJ s rnd ⟨pos, vel, r1, col, bt⟩ w t dt =
      applyWaterPhysicsJ s rnd ⟨pos, vel, r2, col, bt⟩ w t dt := rfl

/-- C1 counterexample: with the unit wave direction `(1, 0)` and unit
amplitude/frequency/speed, at `(x, z, time) = (pi/2.3, 0, 0)` the source's
wave height differs from the specification's formula: the source's tertiary
wave travels along the un-normalized `(waveX + waveZ, waveX - waveZ)`, not
the normalized sum of the primary and perpendicular directions, so its
tertiary term is `0.15 * sin(pi) = 0` here while the specification's is
`0.15 * sin(pi / sqrt 2) > 0`. -/
theorem getWaterHeight_tertiary_direction_cex :
    getWaterHeight cexSettings (Real.pi / 2.3) 0 0 ≠
      specWaveHeight cexSettings (Real.pi / 2.3) 0 0 := by
  have hsqrt2 : (1 : ℝ) < Real.sqrt 2 := by
    nlinarith [Real.sq_sqrt (show (0 : ℝ) ≤ 2 by norm_num),
      Real.sqrt_nonneg 2]
  have hpos : 0 < Real.sin (Real.pi / Real.sqrt 2) := by
    apply Real.sin_pos_of_pos_of_lt_pi
    · positivity
    · calc Real.pi / Real.sqrt 2 < Real.pi / 1 :=
            div_lt_div_of_pos_left Real.pi_pos one_pos hsqrt2
        _ = Real.pi := div_one _
  have hA : getWaterHeight cexSettings (Real.pi / 2.3) 0 0 =
      Real.sin (Real.pi / 2.3) := by
    simp only [getWaterHeight, cexSettings, waterPhysicsParams]
    ring_nf
    simp [Real.sin_pi]
  have hB : specWaveHeight cexSettings (Real.pi / 2.3) 0 0 =
      Real.sin (Real.pi / 2.3) + 0.15 * Real.sin (Real.pi / Real.sqrt 2) := by
    simp only [specWaveHeight, cexSettings, waterPhysicsParams]
    norm_num
    ring_nf
  rw [hA, hB]
  intro heq
  linarith [hpos]

/-- C1 amended: `getWaterHeight` is the sum of exactly three unclamped
sinusoidal travelling-wave terms of the form
`amplitude * sin(dot((x,z), dir) * frequency + time * speed)`: the primary
along `waveDirection` with `(waveHeight, waveFrequency, waveSpeed)`; the
secondary along the perpendicular `(-waveZ, waveX)` with
`(0.3 * waveHeight, 1.5 * waveFrequency, 0.8 * waveSpeed)`; and the tertiary
along the UN-normalized, component-swapped sum direction
`(waveX + waveZ, waveX - waveZ)` with
`(0.15 * waveHeight, 2.3 * waveFrequency, 1.2 * waveSpeed)`. -/
theorem getWaterHeight_three_wave_terms (s : WaterSettings) (x z t : ℝ) :
    getWaterHeight s x z t =
      waveTerm s.waveHeight s.waveDirection.1 s.waveDirection.2
          s.waveFrequency s.waveSpeed x z t
        + waveTerm (0.3 * s.waveHeight) (-s.waveDirection.2) s.waveDirection.1
            (1.5 * s.waveFrequency) (0.8 * s.waveSpeed) x z t
        + waveTerm (0.15 * s.waveHeight)
            (s.waveDirection.1 + s.waveDirection.2)
            (s.waveDirection.1 - s.waveDirection.2)
            (2.3 * s.waveFrequency) (1.2 * s.waveSpeed) x z t := by
  unfold getWaterHeight waveTerm
  ring_nf

/-- C4: a body whose computed sample-point count
`min(maxBuoyancyPoints, ceil(8 * hx * hy * hz))` is zero — in particular
whenever `maxBuoyancyPoints = 0` — receives no impulse from the tick: the
`0/0` average becomes NaN, every downstream comparison against it is false,
so no NaN impulse is ever applied and the body is treated as not submerged. -/
theorem applyWaterPhysics_zero_samples (s : WaterSettings)
    (rnd : ℕ → ℝ × ℝ × ℝ) (body : RigidBody) (w t dt : ℝ) :
    (s.maxBuoyancyPoints = 0 → ∀ he : Vec3, numSamplePoints s he = 0) ∧
    (∀ c : Collider, body.collider = some c →
      numSamplePoints s (halfExtentsOf c) = 0 →
      applyWaterPhysicsJ s rnd body w t dt = emptyTick) := by
  constructor
  · intro h he
    unfold numSamplePoints
    rw [h]
    exact Int.toNat_eq_zero.mpr (min_le_left _ _)
  · intro c hc hn
    unfold applyWaterPhysicsJ
    cases hgt : jgtb body.position.y (jnum (w + 5)) with
    | true => simp
    | false =>
      rw [hc]
      simp only [Bool.false_eq_true, if_false, hn, samplePointsJ,
        List.range_zero, List.map_nil, buoyancyTotalsJ, List.foldl_nil,
        Nat.cast_zero, jdiv_jnum_zero, jlengthSq_zero_guard,
        calculateDragForceJ_nanDepth, jgtb_none_left, Bool.false_and,
        emptyTick]

/-- C4 witness: with `maxBuoyancyPoints = 0` a moving submerged body gets an
empty tick. -/
theorem applyWaterPhysics_zero_samples_witness :
    bodyMoving.collider = some unitCuboid ∧
    numSamplePoints zeroPtsSettings (halfExtentsOf unitCuboid) = 0 ∧
    applyWaterPhysicsJ zeroPtsSettings rnd0 bodyMoving 0 0 1 = emptyTick := by
  have h1 : numSamplePoints zeroPtsSettings (halfExtentsOf unitCuboid) = 0 := by
    simp [numSamplePoints, zeroPtsSettings, halfExtentsOf, unitCuboid,
      waterPhysicsParams]
  exact ⟨rfl, h1,
    (applyWaterPhysics_zero_samples zeroPtsSettings rnd0 bodyMoving 0 0 1).2
      unitCuboid rfl h1⟩

/-- C7: for a body the tick actually processes (not far above water, collider
present, at least one sample point, genuine numeric state), the surge
impulse is applied exactly when `0 < averageSubmergedDepth < 2 * halfExtent.y`,
and it is then the horizontal impulse along `waveDirection` with scalar
magnitude `waveHeight * 0.5 * sin(time * waveSpeed)` scaled by `deltaTime`
(zero y component); otherwise no surge impulse is applied. -/
theorem applyWaterPhysics_surge_iff (s : WaterSettings) (rnd : ℕ → ℝ × ℝ × ℝ)
    (pos vel : Vec3) (rot : ℝ × ℝ × ℝ × ℝ) (c : Collider) (bt : BodyType)
    (w t dt : ℝ) (hnear : ¬ pos.y > w + 5)
    (hn : 1 ≤ numSamplePoints s (halfExtentsOf c)) :
    (applyWaterPhysicsJ s rnd ⟨jvec pos, jvec vel, rot, some c, bt⟩
        w t dt).surgeImpulse =
      (if 0 < averageSubmergedDepthR s pos (halfExtentsOf c) rnd
            (numSamplePoints s (halfExtentsOf c)) w t ∧
          averageSubmergedDepthR s pos (halfExtentsOf c) rnd
            (numSamplePoints s (halfExtentsOf c)) w t
            < (halfExtentsOf c).y * 2 then
        some ⟨jnum (s.waveDirection.1
                * (s.waveHeight * 0.5 * Real.sin (t * s.waveSpeed)) * dt),
              jnum 0,
              jnum (s.waveDirection.2
                * (s.waveHeight * 0.5 * Real.sin (t * s.waveSpeed)) * dt)⟩
      else none) := by
  unfold applyWaterPhysicsJ
  dsimp only
  rw [show (jvec pos).y = jnum pos.y from rfl, jgtb_jnum, decide_eq_false hnear]
  simp only [Bool.false_eq_true, if_false]
  rw [samplePointsJ_jvec, buoyancyTotalsJ_jvec]
  have hne : ((numSamplePoints s (halfExtentsOf c) : ℕ) : ℝ) ≠ 0 :=
    Nat.cast_ne_zero.mpr (by omega)
  rw [jdiv_jnum _ _ hne]
  rw [show (buoyancyTotalsR s
        (samplePointsR pos (halfExtentsOf c) rnd
          (numSamplePoints s (halfExtentsOf c))) w t).2
        / ((numSamplePoints s (halfExtentsOf c) : ℕ) : ℝ)
      = averageSubmergedDepthR s pos (halfExtentsOf c) rnd
          (numSamplePoints s (halfExtentsOf c)) w t from rfl]
  rw [jgtb_jnum, jltb_jnum]
  simp only [Bool.and_eq_true, decide_eq_true_eq]

/-- C7 witness: a flat-water body centred one unit below the surface with one
sample point is partially submerged (`0 < 1 < 2`), so the surge impulse is
applied (here with zero magnitude because the witness wave height is zero). -/
theorem applyWaterPhysics_surge_iff_witness :
    ¬ (0 : ℝ) > 1 + 5 ∧
    1 ≤ numSamplePoints surgeSettings (halfExtentsOf unitCuboid) ∧
    (applyWaterPhysicsJ surgeSettings rnd0 bodyFloat 1 0 1).surgeImpulse =
      some ⟨jnum 0, jnum 0, jnum 0⟩ := by
  have h1 : ¬ (0 : ℝ) > 1 + 5 := by norm_num
  have hn : numSamplePoints surgeSettings (halfExtentsOf unitCuboid) = 1 := by
    norm_num [numSamplePoints, surgeSettings, waterPhysicsParams, halfExtentsOf,
      unitCuboid]
  have h2 : 1 ≤ numSamplePoints surgeSettings (halfExtentsOf unitCuboid) := by
    rw [hn]
  have havg : averageSubmergedDepthR surgeSettings ⟨0, 0, 0⟩
      (halfExtentsOf unitCuboid) rnd0
      (numSamplePoints surgeSettings (halfExtentsOf unitCuboid)) 1 0 = 1 := by
    rw [hn]
    norm_num [averageSubmergedDepthR, buoyancyTotalsR, samplePointsR,
      sampleOffset, rnd0, buoyancyAccumR, calculateBuoyancyForce,
      actualWaterHeight, getWaterHeight, surgeSettings, waterPhysicsParams,
      halfExtentsOf, unitCuboid, List.range_succ, List.range_zero]
  refine ⟨h1, h2, ?_⟩
  show (applyWaterPhysicsJ surgeSettings rnd0
      ⟨jvec ⟨0, 0, 0⟩, jvec ⟨0, 0, 0⟩, q0, some unitCuboid, BodyType.dynamic⟩
      1 0 1).surgeImpulse = some ⟨jnum 0, jnum 0, jnum 0⟩
  rw [applyWaterPhysics_surge_iff surgeSettings rnd0 ⟨0, 0, 0⟩ ⟨0, 0, 0⟩ q0
    unitCuboid BodyType.dynamic 1 0 1 h1 h2]
  rw [havg]
  rw [if_pos (by norm_num [halfExtentsOf, unitCuboid] :
    (0 : ℝ) < 1 ∧ (1 : ℝ) < (halfExtentsOf unitCuboid).y * 2)]
  simp [surgeSettings, waterPhysicsParams]

/-- C8: per-tick anomalies degrade gracefully — a body whose position has a
NaN component, or whose collider lookup returns null, gets an empty tick (the
embedding is total: no error is raised), and each body's update result is a
function of that body alone, so a malformed body never affects the others in
the same `update` call. -/
theorem applyWaterPhysics_malformed_graceful (s : WaterSettings)
    (rnd : ℕ → ℝ × ℝ × ℝ) (body : RigidBody) (w t dt : ℝ)
    (rnds : ℕ → ℕ → ℝ × ℝ × ℝ) (bodies : List RigidBody) (k : ℕ) :
    ((body.position.x = none ∨ body.position.y = none ∨
        body.position.z = none) →
      applyWaterPhysicsJ s rnd body w t dt = emptyTick) ∧
    (body.collider = none → applyWaterPhysicsJ s rnd body w t dt = emptyTick) ∧
    ((updateJ s rnds bodies dt w t)[k]? =
      bodies[k]?.map fun b =>
        if b.bodyType = BodyType.dynamic then
          applyWaterPhysicsJ s (rnds k) b w t dt
        else emptyTick) := by
  refine ⟨?_, ?_, ?_⟩
  · intro h
    unfold applyWaterPhysicsJ
    cases hgt : jgtb body.position.y (jnum (w + 5)) with
    | true => simp
    | false =>
      simp only [Bool.false_eq_true, if_false]
      cases hc : body.collider with
      | none => rfl
      | some c =>
        have hall : ∀ p ∈ samplePointsJ body.position (halfExtentsOf c) rnd
            (numSamplePoints s (halfExtentsOf c)),
            calculateBuoyancyForceJ s p w t = (⟨jnum 0, none, jnum 0⟩, none) := by
          intro p hp
          unfold samplePointsJ at hp
          rw [List.mem_map] at hp
          obtain ⟨i, _, hpe⟩ := hp
          apply calculateBuoyancyForceJ_nanPos
          rcases h with hx | hy | hz
          · left; rw [← hpe]; dsimp only; rw [hx, jadd_none_left]
          · right; left; rw [← hpe]; dsimp only; rw [hy, jadd_none_left]
          · right; right; rw [← hpe]; dsimp only; rw [hz, jadd_none_left]
        by_cases hn0 : numSamplePoints s (halfExtentsOf c) = 0
        · simp only [hn0, samplePointsJ, List.range_zero, List.map_nil,
            buoyancyTotalsJ, List.foldl_nil, Nat.cast_zero, jdiv_jnum_zero,
            jlengthSq_zero_guard, calculateDragForceJ_nanDepth, jgtb_none_left,
            Bool.false_and, Bool.false_eq_true, if_false, emptyTick]
        · have hne : samplePointsJ body.position (halfExtentsOf c) rnd
              (numSamplePoints s (halfExtentsOf c)) ≠ [] := by
            unfold samplePointsJ
            simp [hn0, List.range_eq_nil]
          obtain ⟨hFy, hD⟩ := buoyancyTotalsJ_nan s w t _ hne hall
          have g1 : jgtb (jlengthSq (buoyancyTotalsJ s
              (samplePointsJ body.position (halfExtentsOf c) rnd
                (numSamplePoints s (halfExtentsOf c))) w t).1) (jnum 0)
              = false := jlengthSq_nan_guard _ hFy
          simp only [g1, hD, jdiv_none_left, calculateDragForceJ_nanDepth,
            jgtb_none_left, Bool.false_and, Bool.false_eq_true, if_false,
            emptyTick]
  · intro h
    unfold applyWaterPhysicsJ
    rw [h]
    cases hgt : jgtb body.position.y (jnum (w + 5)) with
    | true => simp
    | false => simp
  · have h := updateJAux_getElem s rnds w t dt bodies 0 k
    simpa [updateJ] using h

/-- C8 witness: a dynamic body whose position's y component is NaN gets an
empty tick. -/
theorem applyWaterPhysics_malformed_graceful_witness :
    (bodyNaN.position.x = none ∨ bodyNaN.position.y = none ∨
      bodyNaN.position.z = none) ∧
    applyWaterPhysicsJ waterPhysicsParams rnd0 bodyNaN 0 0 1 = emptyTick :=
  ⟨Or.inr (Or.inl rfl),
   (applyWaterPhysics_malformed_graceful waterPhysicsParams rnd0 bodyNaN 0 0 1
      rnds0 [] 0).1 (Or.inr (Or.inl rfl))⟩

end

